import Mathlib

/-!
Verification of `examples/batch_convert.py` (batch export driver).

The file is shallowly embedded: the per-result loop body of
`export_documents` becomes a step function on an explicit state
(counters, file writes performed, log lines emitted); the loop itself is a
left fold over the list of conversion results.  Rendered document content
is opaque to the driver, so each renderer is modelled as a string-valued
field of `ConversionResult`.  File writes record the file name, the
content written, and which text encoding the `open` call requested.
-/

namespace BatchConvert

/-- `ConversionStatus` from `docling.datamodel.base_models`: the closed set
of outcomes the driver branches on. -/
inductive ConversionStatus where
  | SUCCESS
  | PARTIAL_SUCCESS
  | FAILURE
  deriving DecidableEq

/-- One error record carried by a partially converted result; the driver
reads only `error_message`. -/
structure ErrorItem where
  error_message : String
  deriving DecidableEq

/-- The originating input document of a result: the driver reads
`conv_res.input.file` (for log lines) and `conv_res.input.file.stem`
(for output file names). -/
structure InputDoc where
  file : String
  stem : String
  deriving DecidableEq

/-- The experimental document object `conv_res.experimental`: the four
strings the experimental branch writes.  `model_dump_json` stands for
`json.dumps(experimental.model_dump(mode="json", by_alias=True))` and
`model_dump_yaml` for `yaml.safe_dump(...)` of the same dump. -/
structure ExperimentalDoc where
  model_dump_json : String
  model_dump_yaml : String
  export_to_document_tokens : String
  export_to_markdown : String
  deriving DecidableEq

/-- `ConversionResult`: status, input document, error records, and the
rendered content of each export format.  `render_as_dict_json` stands for
`json.dumps(conv_res.render_as_dict())`; the remaining renderers return
strings directly in the source. -/
structure ConversionResult where
  status : ConversionStatus
  input : InputDoc
  errors : List ErrorItem
  render_as_dict_json : String
  render_as_text : String
  render_as_markdown : String
  render_as_doctags : String
  experimental : ExperimentalDoc
  deriving DecidableEq

/-- The text encoding a file write requested: `utf8` for
`open(..., "w", encoding="utf-8")`, `platformDefault` for `open(..., "w")`
with the encoding argument omitted. -/
inductive Encoding where
  | utf8
  | platformDefault
  deriving DecidableEq

/-- One file write: target name (relative to the output directory),
content written, and requested encoding. -/
structure FileWrite where
  name : String
  content : String
  enc : Encoding
  deriving DecidableEq

/-- Driver state: the three counters, the file writes performed so far
(in order), and the log lines emitted so far (in order). -/
structure ExportState where
  success_count : Nat
  partial_success_count : Nat
  failure_count : Nat
  writes : List FileWrite
  logs : List String
  deriving DecidableEq

/-- The module-level flag `USE_EXPERIMENTAL` (set to `False` in the
source).  The driver below is parameterised over the flag's value so that
both settings can be reasoned about. -/
def USE_EXPERIMENTAL : Bool := false

/-- The four unconditional writes of the SUCCESS branch:
`{stem}.json`, `{stem}.txt`, `{stem}.md`, `{stem}.doctags`, each opened
with `encoding="utf-8"`. -/
def primaryWrites (conv_res : ConversionResult) : List FileWrite :=
  let doc_filename := conv_res.input.stem
  [ ⟨doc_filename ++ ".json", conv_res.render_as_dict_json, Encoding.utf8⟩,
    ⟨doc_filename ++ ".txt", conv_res.render_as_text, Encoding.utf8⟩,
    ⟨doc_filename ++ ".md", conv_res.render_as_markdown, Encoding.utf8⟩,
    ⟨doc_filename ++ ".doctags", conv_res.render_as_doctags, Encoding.utf8⟩ ]

/-- The four writes of the `if USE_EXPERIMENTAL:` block: each `open` call
omits the encoding argument, so the platform default encoding is used. -/
def experimentalWrites (conv_res : ConversionResult) : List FileWrite :=
  let doc_filename := conv_res.input.stem
  [ ⟨doc_filename ++ ".experimental.json", conv_res.experimental.model_dump_json,
      Encoding.platformDefault⟩,
    ⟨doc_filename ++ ".experimental.yaml", conv_res.experimental.model_dump_yaml,
      Encoding.platformDefault⟩,
    ⟨doc_filename ++ ".experimental.doctags", conv_res.experimental.export_to_document_tokens,
      Encoding.platformDefault⟩,
    ⟨doc_filename ++ ".experimental.md", conv_res.experimental.export_to_markdown,
      Encoding.platformDefault⟩ ]

/-- The file writes one result contributes: the SUCCESS branch performs
the primary writes followed, when the flag is set, by the experimental
writes; the other branches write nothing. -/
def resultWrites (use_experimental : Bool) (conv_res : ConversionResult) : List FileWrite :=
  match conv_res.status with
  | ConversionStatus.SUCCESS =>
      primaryWrites conv_res ++ (if use_experimental then experimentalWrites conv_res else [])
  | ConversionStatus.PARTIAL_SUCCESS => []
  | ConversionStatus.FAILURE => []

/-- The log lines one result contributes: nothing on SUCCESS; a headline
plus one line per error record on PARTIAL_SUCCESS; a single line on the
remaining (FAILURE) branch. -/
def resultLogs (conv_res : ConversionResult) : List String :=
  match conv_res.status with
  | ConversionStatus.SUCCESS => []
  | ConversionStatus.PARTIAL_SUCCESS =>
      ("Document " ++ conv_res.input.file
          ++ " was partially converted with the following errors:")
        :: conv_res.errors.map (fun item => "\t" ++ item.error_message)
  | ConversionStatus.FAILURE =>
      ["Document " ++ conv_res.input.file ++ " failed to convert."]

/-- One iteration of the `for conv_res in conv_results:` loop of
`export_documents`: branch on the status, perform the branch's writes and
log lines, and increment exactly one counter. -/
def stepResult (use_experimental : Bool) (st : ExportState) (conv_res : ConversionResult) :
    ExportState :=
  match conv_res.status with
  | ConversionStatus.SUCCESS =>
      ⟨st.success_count + 1, st.partial_success_count, st.failure_count,
        st.writes
          ++ (primaryWrites conv_res
              ++ (if use_experimental then experimentalWrites conv_res else [])),
        st.logs⟩
  | ConversionStatus.PARTIAL_SUCCESS =>
      ⟨st.success_count, st.partial_success_count + 1, st.failure_count,
        st.writes,
        st.logs
          ++ (("Document " ++ conv_res.input.file
                ++ " was partially converted with the following errors:")
              :: conv_res.errors.map (fun item => "\t" ++ item.error_message))⟩
  | ConversionStatus.FAILURE =>
      ⟨st.success_count, st.partial_success_count, st.failure_count + 1,
        st.writes,
        st.logs ++ ["Document " ++ conv_res.input.file ++ " failed to convert."]⟩

/-- The counters all start at zero, no writes, no logs. -/
def initState : ExportState := ⟨0, 0, 0, [], []⟩

/-- The summary log line emitted after the loop. -/
def summaryLine (s p f : Nat) : String :=
  "Processed " ++ toString (s + p + f) ++ " docs, of which " ++ toString f
    ++ " failed and " ++ toString p ++ " were partially converted."

/-- `export_documents`: fold the loop body over the result sequence, then
emit the summary line.  The `output_dir.mkdir` call and the directory
prefix of each path are not modelled: file names are relative to the
output directory, which is fixed for the whole call. -/
def export_documents (use_experimental : Bool) (conv_results : List ConversionResult) :
    ExportState :=
  let st := conv_results.foldl (stepResult use_experimental) initState
  ⟨st.success_count, st.partial_success_count, st.failure_count, st.writes,
    st.logs ++ [summaryLine st.success_count st.partial_success_count st.failure_count]⟩

/-- The value the Python function returns:
`(success_count, partial_success_count, failure_count)`. -/
def export_documents_ret (use_experimental : Bool) (conv_results : List ConversionResult) :
    Nat × Nat × Nat :=
  ((export_documents use_experimental conv_results).success_count,
    (export_documents use_experimental conv_results).partial_success_count,
    (export_documents use_experimental conv_results).failure_count)

theorem stepResult_eq (use_experimental : Bool) (st : ExportState)
    (conv_res : ConversionResult) :
    stepResult use_experimental st conv_res =
      ⟨st.success_count + (if conv_res.status = ConversionStatus.SUCCESS then 1 else 0),
        st.partial_success_count
          + (if conv_res.status = ConversionStatus.PARTIAL_SUCCESS then 1 else 0),
        st.failure_count
          + (if conv_res.status ≠ ConversionStatus.SUCCESS
                ∧ conv_res.status ≠ ConversionStatus.PARTIAL_SUCCESS then 1 else 0),
        st.writes ++ resultWrites use_experimental conv_res,
        st.logs ++ resultLogs conv_res⟩ := by
  cases h : conv_res.status <;> simp [stepResult, resultWrites, resultLogs, h]

theorem foldl_stepResult (use_experimental : Bool) (conv_results : List ConversionResult)
    (st : ExportState) :
    conv_results.foldl (stepResult use_experimental) st =
      ⟨st.success_count
          + conv_results.countP (fun r => decide (r.status = ConversionStatus.SUCCESS)),
        st.partial_success_count
          + conv_results.countP (fun r => decide (r.status = ConversionStatus.PARTIAL_SUCCESS)),
        st.failure_count
          + conv_results.countP (fun r => decide (r.status ≠ ConversionStatus.SUCCESS
              ∧ r.status ≠ ConversionStatus.PARTIAL_SUCCESS)),
        st.writes ++ conv_results.flatMap (resultWrites use_experimental),
        st.logs ++ conv_results.flatMap resultLogs⟩ := by
  induction conv_results generalizing st with
  | nil => cases st; simp
  | cons r rs ih =>
      rw [List.foldl_cons, stepResult_eq, ih]
      cases h : r.status <;>
        simp [List.countP_cons, resultWrites, resultLogs, h, List.append_assoc] <;>
        omega

theorem export_documents_eq (use_experimental : Bool) (conv_results : List ConversionResult) :
    export_documents use_experimental conv_results =
      ⟨conv_results.countP (fun r => decide (r.status = ConversionStatus.SUCCESS)),
        conv_results.countP (fun r => decide (r.status = ConversionStatus.PARTIAL_SUCCESS)),
        conv_results.countP (fun r => decide (r.status ≠ ConversionStatus.SUCCESS
            ∧ r.status ≠ ConversionStatus.PARTIAL_SUCCESS)),
        conv_results.flatMap (resultWrites use_experimental),
        conv_results.flatMap resultLogs
          ++ [summaryLine
                (conv_results.countP (fun r => decide (r.status = ConversionStatus.SUCCESS)))
                (conv_results.countP
                  (fun r => decide (r.status = ConversionStatus.PARTIAL_SUCCESS)))
                (conv_results.countP (fun r => decide (r.status ≠ ConversionStatus.SUCCESS
                    ∧ r.status ≠ ConversionStatus.PARTIAL_SUCCESS)))]⟩ := by
  rw [export_documents, foldl_stepResult]
  simp [initState]

theorem export_documents_writes (use_experimental : Bool)
    (conv_results : List ConversionResult) :
    (export_documents use_experimental conv_results).writes =
      conv_results.flatMap (resultWrites use_experimental) := by
  rw [export_documents_eq]

/-- C1: for every finite input sequence, `export_documents` returns the
triple `(success_count, partial_success_count, failure_count)`, where the
first component counts the results whose status is SUCCESS, the second
those whose status is PARTIAL_SUCCESS, and the third all remaining
results. -/
theorem export_documents_returns_counts (use_experimental : Bool)
    (conv_results : List ConversionResult) :
    export_documents_ret use_experimental conv_results =
      (conv_results.countP (fun r => decide (r.status = ConversionStatus.SUCCESS)),
        conv_results.countP (fun r => decide (r.status = ConversionStatus.PARTIAL_SUCCESS)),
        conv_results.countP (fun r => decide (r.status ≠ ConversionStatus.SUCCESS
            ∧ r.status ≠ ConversionStatus.PARTIAL_SUCCESS))) := by
  rw [export_documents_ret, export_documents_eq]

/-- C2: after processing the full sequence the three counters sum to the
length of the sequence, and each loop iteration increments exactly one of
them by exactly one. -/
theorem export_documents_counts_sum (use_experimental : Bool)
    (conv_results : List ConversionResult) :
    (export_documents use_experimental conv_results).success_count
        + (export_documents use_experimental conv_results).partial_success_count
        + (export_documents use_experimental conv_results).failure_count
      = conv_results.length
    ∧ ∀ st : ExportState, ∀ conv_res : ConversionResult,
        (stepResult use_experimental st conv_res).success_count
            + (stepResult use_experimental st conv_res).partial_success_count
            + (stepResult use_experimental st conv_res).failure_count
          = st.success_count + st.partial_success_count + st.failure_count + 1 := by
  constructor
  · rw [export_documents_eq]
    induction conv_results with
    | nil => simp
    | cons r rs ih =>
        cases h : r.status <;> simp [List.countP_cons, h] at ih ⊢ <;> omega
  · intro st conv_res
    cases h : conv_res.status <;> simp [stepResult, h] <;> omega

/-- Concrete experimental document used by witnesses. -/
def sampleExperimental : ExperimentalDoc := ⟨"ejson", "eyaml", "etok", "emd"⟩

/-- Concrete SUCCESS result used by witnesses. -/
def sampleSuccess : ConversionResult :=
  ⟨ConversionStatus.SUCCESS, ⟨"a.pdf", "a"⟩, [], "djson", "dtext", "dmd", "dtags",
    sampleExperimental⟩

/-- Concrete PARTIAL_SUCCESS result with one error record, used by
witnesses. -/
def samplePartial : ConversionResult :=
  ⟨ConversionStatus.PARTIAL_SUCCESS, ⟨"b.pdf", "b"⟩, [⟨"bad page"⟩], "djson", "dtext",
    "dmd", "dtags", sampleExperimental⟩

/-- Concrete FAILURE result used by witnesses. -/
def sampleFailure : ConversionResult :=
  ⟨ConversionStatus.FAILURE, ⟨"c.pdf", "c"⟩, [], "djson", "dtext", "dmd", "dtags",
    sampleExperimental⟩

/-- C3: for every result with status SUCCESS the driver writes exactly the
four files `{stem}.json`, `{stem}.txt`, `{stem}.md`, `{stem}.doctags`
when the experimental flag is off, and exactly those four followed by
`{stem}.experimental.json`, `{stem}.experimental.yaml`,
`{stem}.experimental.doctags`, `{stem}.experimental.md` when it is on;
the writes of a whole batch are exactly the per-result writes in order. -/
theorem success_writes_exactly_four_or_eight (conv_res : ConversionResult)
    (h : conv_res.status = ConversionStatus.SUCCESS) :
    (resultWrites false conv_res).map FileWrite.name =
        [conv_res.input.stem ++ ".json", conv_res.input.stem ++ ".txt",
          conv_res.input.stem ++ ".md", conv_res.input.stem ++ ".doctags"]
      ∧ (resultWrites true conv_res).map FileWrite.name =
        [conv_res.input.stem ++ ".json", conv_res.input.stem ++ ".txt",
          conv_res.input.stem ++ ".md", conv_res.input.stem ++ ".doctags",
          conv_res.input.stem ++ ".experimental.json",
          conv_res.input.stem ++ ".experimental.yaml",
          conv_res.input.stem ++ ".experimental.doctags",
          conv_res.input.stem ++ ".experimental.md"]
      ∧ ∀ (use_experimental : Bool) (conv_results : List ConversionResult),
          (export_documents use_experimental conv_results).writes =
            conv_results.flatMap (resultWrites use_experimental) := by
  refine ⟨?_, ?_, fun u rs => export_documents_writes u rs⟩ <;>
    simp [resultWrites, primaryWrites, experimentalWrites, h]

/-- Witness for C3 at the concrete SUCCESS result `sampleSuccess`. -/
theorem success_writes_exactly_four_or_eight_witness :
    sampleSuccess.status = ConversionStatus.SUCCESS
      ∧ ((resultWrites false sampleSuccess).map FileWrite.name =
            [sampleSuccess.input.stem ++ ".json", sampleSuccess.input.stem ++ ".txt",
              sampleSuccess.input.stem ++ ".md", sampleSuccess.input.stem ++ ".doctags"]
          ∧ (resultWrites true sampleSuccess).map FileWrite.name =
            [sampleSuccess.input.stem ++ ".json", sampleSuccess.input.stem ++ ".txt",
              sampleSuccess.input.stem ++ ".md", sampleSuccess.input.stem ++ ".doctags",
              sampleSuccess.input.stem ++ ".experimental.json",
              sampleSuccess.input.stem ++ ".experimental.yaml",
              sampleSuccess.input.stem ++ ".experimental.doctags",
              sampleSuccess.input.stem ++ ".experimental.md"]
          ∧ ∀ (use_experimental : Bool) (conv_results : List ConversionResult),
              (export_documents use_experimental conv_results).writes =
                conv_results.flatMap (resultWrites use_experimental)) :=
  ⟨rfl, success_writes_exactly_four_or_eight sampleSuccess rfl⟩

/-- C4: for every result with status PARTIAL_SUCCESS the driver writes no
file, logs one diagnostic line naming the document followed by one line
per error record's message, and increments only the partial-success
counter. -/
theorem partial_result_logs_and_counter (conv_res : ConversionResult)
    (h : conv_res.status = ConversionStatus.PARTIAL_SUCCESS) :
    (∀ use_experimental : Bool, resultWrites use_experimental conv_res = [])
      ∧ resultLogs conv_res =
          ("Document " ++ conv_res.input.file
              ++ " was partially converted with the following errors:")
            :: conv_res.errors.map (fun item => "\t" ++ item.error_message)
      ∧ ∀ (use_experimental : Bool) (st : ExportState),
          stepResult use_experimental st conv_res =
            ⟨st.success_count, st.partial_success_count + 1, st.failure_count,
              st.writes, st.logs ++ resultLogs conv_res⟩ := by
  refine ⟨fun u => ?_, ?_, fun u st => ?_⟩ <;>
    simp [resultWrites, resultLogs, stepResult, h]

/-- Witness for C4 at the concrete PARTIAL_SUCCESS result
`samplePartial`. -/
theorem partial_result_logs_and_counter_witness :
    samplePartial.status = ConversionStatus.PARTIAL_SUCCESS
      ∧ ((∀ use_experimental : Bool, resultWrites use_experimental samplePartial = [])
          ∧ resultLogs samplePartial =
              ("Document " ++ samplePartial.input.file
                  ++ " was partially converted with the following errors:")
                :: samplePartial.errors.map (fun item => "\t" ++ item.error_message)
          ∧ ∀ (use_experimental : Bool) (st : ExportState),
              stepResult use_experimental st samplePartial =
                ⟨st.success_count, st.partial_success_count + 1, st.failure_count,
                  st.writes, st.logs ++ resultLogs samplePartial⟩) :=
  ⟨rfl, partial_result_logs_and_counter samplePartial rfl⟩

/-- C5: for every result whose status is neither SUCCESS nor
PARTIAL_SUCCESS the driver writes no file, logs exactly one line naming
the document, increments only the failure counter, and the batch
continues: the remaining results contribute their counts and writes
exactly as they would without the failing result. -/
theorem failure_result_counted_and_batch_continues (conv_res : ConversionResult)
    (h1 : conv_res.status ≠ ConversionStatus.SUCCESS)
    (h2 : conv_res.status ≠ ConversionStatus.PARTIAL_SUCCESS) :
    (∀ use_experimental : Bool, resultWrites use_experimental conv_res = [])
      ∧ resultLogs conv_res = ["Document " ++ conv_res.input.file ++ " failed to convert."]
      ∧ (∀ (use_experimental : Bool) (st : ExportState),
          stepResult use_experimental st conv_res =
            ⟨st.success_count, st.partial_success_count, st.failure_count + 1,
              st.writes, st.logs ++ resultLogs conv_res⟩)
      ∧ ∀ (use_experimental : Bool) (pre post : List ConversionResult),
          export_documents_ret use_experimental (pre ++ conv_res :: post) =
            ((export_documents_ret use_experimental (pre ++ post)).1,
              (export_documents_ret use_experimental (pre ++ post)).2.1,
              (export_documents_ret use_experimental (pre ++ post)).2.2 + 1)
          ∧ (export_documents use_experimental (pre ++ conv_res :: post)).writes =
              (export_documents use_experimental (pre ++ post)).writes := by
  cases hs : conv_res.status with
  | SUCCESS => exact absurd hs h1
  | PARTIAL_SUCCESS => exact absurd hs h2
  | FAILURE =>
      refine ⟨fun u => ?_, ?_, fun u st => ?_, fun u pre post => ⟨?_, ?_⟩⟩
      · simp [resultWrites, hs]
      · simp [resultLogs, hs]
      · simp [stepResult, resultLogs, hs]
      · simp [export_documents_ret, export_documents_eq, List.countP_append,
          List.countP_cons, hs]
        omega
      · simp [export_documents_writes, resultWrites, hs]

/-- Witness for C5 at the concrete FAILURE result `sampleFailure`. -/
theorem failure_result_counted_and_batch_continues_witness :
    sampleFailure.status ≠ ConversionStatus.SUCCESS
      ∧ sampleFailure.status ≠ ConversionStatus.PARTIAL_SUCCESS
      ∧ ((∀ use_experimental : Bool, resultWrites use_experimental sampleFailure = [])
          ∧ resultLogs sampleFailure =
              ["Document " ++ sampleFailure.input.file ++ " failed to convert."]
          ∧ (∀ (use_experimental : Bool) (st : ExportState),
              stepResult use_experimental st sampleFailure =
                ⟨st.success_count, st.partial_success_count, st.failure_count + 1,
                  st.writes, st.logs ++ resultLogs sampleFailure⟩)
          ∧ ∀ (use_experimental : Bool) (pre post : List ConversionResult),
              export_documents_ret use_experimental (pre ++ sampleFailure :: post) =
                ((export_documents_ret use_experimental (pre ++ post)).1,
                  (export_documents_ret use_experimental (pre ++ post)).2.1,
                  (export_documents_ret use_experimental (pre ++ post)).2.2 + 1)
              ∧ (export_documents use_experimental (pre ++ sampleFailure :: post)).writes =
                  (export_documents use_experimental (pre ++ post)).writes) :=
  ⟨by decide, by decide,
    failure_result_counted_and_batch_continues sampleFailure (by decide) (by decide)⟩

/-- C6 counterexample: it is not the case that every file write of
`export_documents` uses UTF-8 — with the experimental flag enabled and a
SUCCESS result, the experimental writes request the platform default
encoding, because their `open` calls omit the encoding argument. -/
theorem not_all_writes_utf8 :
    ¬ ((export_documents true [sampleSuccess]).writes.all
          (fun w => decide (w.enc = Encoding.utf8)) = true) := by
  decide

/-- C6 amended: the four primary-format writes of the SUCCESS branch
request UTF-8 explicitly, while the four experimental-format writes omit
the encoding argument and therefore use the platform default encoding;
a result contributes exactly the primary writes, plus the experimental
writes when the flag is set, and only on the SUCCESS branch. -/
theorem primary_writes_utf8_experimental_writes_default (use_experimental : Bool)
    (conv_res : ConversionResult) :
    (primaryWrites conv_res).map FileWrite.enc =
        [Encoding.utf8, Encoding.utf8, Encoding.utf8, Encoding.utf8]
      ∧ (experimentalWrites conv_res).map FileWrite.enc =
        [Encoding.platformDefault, Encoding.platformDefault,
          Encoding.platformDefault, Encoding.platformDefault]
      ∧ resultWrites use_experimental conv_res =
          (if conv_res.status = ConversionStatus.SUCCESS then
            primaryWrites conv_res
              ++ (if use_experimental then experimentalWrites conv_res else [])
          else []) := by
  refine ⟨?_, ?_, ?_⟩
  · simp [primaryWrites]
  · simp [experimentalWrites]
  · cases h : conv_res.status <;> simp [resultWrites, h]

/-- A filesystem restricted to the output directory: a map from file name
to content, `none` when the file does not exist.  Writing opens the file
in mode `"w"`, truncating: the name is bound to exactly the written
content. -/
def applyWrite (fs : String → Option String) (w : FileWrite) : String → Option String :=
  fun n => if n = w.name then some w.content else fs n

/-- Perform a list of writes in order. -/
def applyWrites (fs : String → Option String) (ws : List FileWrite) :
    String → Option String :=
  ws.foldl applyWrite fs

/-- The filesystem state after one run of `export_documents` on the given
results over the given initial state of the output directory. -/
def runExport (use_experimental : Bool) (conv_results : List ConversionResult)
    (fs : String → Option String) : String → Option String :=
  applyWrites fs (export_documents use_experimental conv_results).writes

/-- The content a single name holds after a list of writes, starting from
default content `d`. -/
def valAt (ws : List FileWrite) (n : String) (d : Option String) : Option String :=
  ws.foldl (fun acc w => if n = w.name then some w.content else acc) d

theorem applyWrites_apply (ws : List FileWrite) (fs : String → Option String)
    (n : String) : applyWrites fs ws n = valAt ws n (fs n) := by
  induction ws generalizing fs with
  | nil => rfl
  | cons w ws ih =>
      show applyWrites (applyWrite fs w) ws n = valAt (w :: ws) n (fs n)
      rw [ih]
      rfl

theorem valAt_idem (ws : List FileWrite) (n : String) (d : Option String) :
    valAt ws n (valAt ws n d) = valAt ws n d := by
  induction ws using List.reverseRecOn with
  | nil => rfl
  | append_singleton ws w ih =>
      simp only [valAt, List.foldl_append, List.foldl_cons, List.foldl_nil] at ih ⊢
      by_cases hn : n = w.name <;> simp [hn, ih]

/-- C8: running the driver a second time with the same results over the
filesystem produced by the first run rewrites each file with identical
content and creates nothing new, so the filesystem state equals the state
after a single run. -/
theorem runExport_idem (use_experimental : Bool) (conv_results : List ConversionResult)
    (fs : String → Option String) :
    runExport use_experimental conv_results
        (runExport use_experimental conv_results fs)
      = runExport use_experimental conv_results fs := by
  funext n
  simp only [runExport, applyWrites_apply, valAt_idem]

/-- The conversion result as the loop body leaves it: the body reads
`status`, `input`, `errors` and the rendered content, performs writes and
log calls, and assigns to no attribute of `conv_res`, so the object after
the iteration is rebuilt from exactly its incoming fields. -/
def stepObject (conv_res : ConversionResult) : ConversionResult :=
  ⟨conv_res.status, conv_res.input, conv_res.errors, conv_res.render_as_dict_json,
    conv_res.render_as_text, conv_res.render_as_markdown, conv_res.render_as_doctags,
    conv_res.experimental⟩

/-- The whole result sequence as it stands after the driver's loop. -/
def loopResultObjects (conv_results : List ConversionResult) : List ConversionResult :=
  conv_results.map stepObject

/-- C9: the driver never mutates the conversion results it receives — the
sequence of result objects after the loop is the sequence it was given. -/
theorem export_documents_preserves_results (conv_results : List ConversionResult) :
    loopResultObjects conv_results = conv_results := by
  induction conv_results with
  | nil => rfl
  | cons r rs ih =>
      show r :: loopResultObjects rs = r :: rs
      rw [ih]

/-- The module-level names `main` can resolve: the imports of the file
(`json`, `logging`, `time`, `Path`, `Iterable`, `yaml`, the four names
imported from `docling.datamodel`) and the module-level definitions.
Neither `PdfDocumentConverter` nor `StandardModelPipeline` appears. -/
def module_names : List String :=
  ["json", "logging", "time", "Path", "Iterable", "yaml",
    "ConversionStatus", "PdfPipelineOptions", "ConversionResult",
    "DocumentConversionInput", "_log", "USE_EXPERIMENTAL",
    "export_documents", "main"]

/-- The two kinds of exception `main` can raise: Python's NameError for an
undefined global, and the RuntimeError raised by the final failure
check. -/
inductive PyError where
  | NameError (name : String)
  | RuntimeError (msg : String)
  deriving DecidableEq

/-- Looking up a global name: succeeds on the module's names, raises
NameError otherwise. -/
def resolveName (n : String) : Except PyError Unit :=
  if module_names.contains n then Except.ok () else Except.error (PyError.NameError n)

/-- The five input paths `main` builds. -/
def input_doc_paths : List String :=
  ["./tests/data/2206.01062.pdf", "./tests/data/2203.01017v2.pdf",
    "./tests/data/2305.03393v1.pdf", "./tests/data/redp5110.pdf",
    "./tests/data/redp5695.pdf"]

/-- The final check of `main`: raise RuntimeError naming the failure
count and the input count when the failure count is positive, otherwise
return normally. -/
def main_failure_check (failure_count : Nat) : Except PyError Unit :=
  if failure_count > 0 then
    Except.error (PyError.RuntimeError
      ("The example failed converting " ++ toString failure_count ++ " on "
        ++ toString input_doc_paths.length ++ "."))
  else Except.ok ()

/-- `main`, statement by statement, with global-name resolution explicit
(Python resolves the callee of a call before evaluating its arguments).
The external converter is abstracted as `oracle`, giving the conversion
results `doc_converter.convert(input)` would yield for the input paths;
`main` is a function of the oracle so that independence from it can be
stated. -/
def main (oracle : List String → List ConversionResult) : Except PyError Unit := do
  resolveName "logging"
  resolveName "Path"
  resolveName "PdfDocumentConverter"
  resolveName "PdfPipelineOptions"
  resolveName "DocumentConversionInput"
  resolveName "StandardModelPipeline"
  resolveName "DocumentConversionInput"
  resolveName "time"
  let conv_results := oracle input_doc_paths
  resolveName "export_documents"
  let t := export_documents_ret USE_EXPERIMENTAL conv_results
  resolveName "time"
  main_failure_check t.2.2

/-- C7: the final check of `main` raises a RuntimeError referencing the
failure count and the total input count exactly when the failure count is
positive, and returns normally otherwise — but `main` as written never
reaches that check: it raises NameError for `PdfDocumentConverter` before
any conversion, even when every document would convert successfully. -/
theorem main_failure_check_iff_but_unreachable :
    (∀ failure_count : Nat,
        main_failure_check failure_count =
          if 0 < failure_count then
            Except.error (PyError.RuntimeError
              ("The example failed converting " ++ toString failure_count ++ " on "
                ++ toString input_doc_paths.length ++ "."))
          else Except.ok ())
      ∧ main (fun _ => []) = Except.error (PyError.NameError "PdfDocumentConverter") :=
  ⟨fun _ => rfl, rfl⟩

/-- C10: `PdfDocumentConverter` and `StandardModelPipeline` are not among
the module's defined names, so every call of `main` raises NameError for
`PdfDocumentConverter` before any conversion or export takes place —
whatever results the converter would have produced. -/
theorem main_always_name_error :
    module_names.contains "PdfDocumentConverter" = false
      ∧ module_names.contains "StandardModelPipeline" = false
      ∧ ∀ oracle : List String → List ConversionResult,
          main oracle = Except.error (PyError.NameError "PdfDocumentConverter") :=
  ⟨by decide, by decide, fun oracle => rfl⟩

end BatchConvert
